import Mathlib

/-!
Verification of the numeric core of `tests/python/contrib/test_cmsisnn/utils.py`:
the dtype range oracle (`get_range_for_dtype_str`), the output quantization
parameter derivation (`get_conv2d_qnn_params`), the fused-activation clip bound
computation (`make_qnn_relu`) and the SAME-padding computation
(`get_same_padding`).

The Python code computes with IEEE float64; the embedding idealizes that
arithmetic as exact rational arithmetic.  The two places where float semantics
matter structurally are modelled explicitly:
  - Python `int(x)` truncates toward zero (`ratTrunc`); applied to a NaN or
    infinity (which arises exactly when `output_scale == 0` here) it raises,
    modelled as an `Except.error`.
  - Python 3 `round(x)` rounds half to even (`roundHalfEven`).
Fallible Python behavior (unknown dtype tag, empty weight-scale list,
too-short shape list, zero-channel depthwise division, int-of-NaN) is
modelled with `Except String`.
-/

/-- Python `int(x)` applied to a (finite) real value: truncation toward zero. -/
def ratTrunc (q : ℚ) : ℤ := if 0 ≤ q then ⌊q⌋ else ⌈q⌉

/-- Python 3 `round(x)`: round to nearest integer, ties to even. -/
def roundHalfEven (q : ℚ) : ℤ :=
  if q - ⌊q⌋ < 1/2 then ⌊q⌋
  else if 1/2 < q - ⌊q⌋ then ⌊q⌋ + 1
  else if ⌊q⌋ % 2 = 0 then ⌊q⌋ else ⌊q⌋ + 1

/-- Modelled from the spec: `round_to_nearest_int`, round to nearest integer
with ties away from zero (the rounding rule the spec asserts both
`get_conv2d_qnn_params` and the `make_qnn_relu` quantize helper use). -/
def round_to_nearest_int (q : ℚ) : ℤ :=
  if 0 ≤ q then ⌊q + 1/2⌋ else ⌈q - 1/2⌉

/-- `np.max` over a nonempty collection, given as head plus tail. -/
def foldMax : ℚ → List ℚ → ℚ
  | w, [] => w
  | w, x :: xs => foldMax (max w x) xs

/-- `np.min` over a nonempty collection, given as head plus tail. -/
def foldMin : ℚ → List ℚ → ℚ
  | w, [] => w
  | w, x :: xs => foldMin (min w x) xs

/-- `get_range_for_dtype_str` (utils.py lines 77-98): `np.iinfo` for integer
tags, falling back to `np.finfo` for floating tags; any other tag raises
ValueError.  Integer bounds are exact; float bounds are the exact values of
the IEEE finite extremes (float16: 65504, float32: `2^128 - 2^104`,
float64: `2^1024 - 2^971`). -/
def get_range_for_dtype_str (dtype : String) : Except String (ℚ × ℚ) :=
  if dtype = "int8" then .ok (-(2 ^ 7), 2 ^ 7 - 1)
  else if dtype = "int16" then .ok (-(2 ^ 15), 2 ^ 15 - 1)
  else if dtype = "int32" then .ok (-(2 ^ 31), 2 ^ 31 - 1)
  else if dtype = "int64" then .ok (-(2 ^ 63), 2 ^ 63 - 1)
  else if dtype = "uint8" then .ok (0, 2 ^ 8 - 1)
  else if dtype = "uint16" then .ok (0, 2 ^ 16 - 1)
  else if dtype = "uint32" then .ok (0, 2 ^ 32 - 1)
  else if dtype = "uint64" then .ok (0, 2 ^ 64 - 1)
  else if dtype = "float16" then .ok (-65504, 65504)
  else if dtype = "float32" then .ok (-(2 ^ 128 - 2 ^ 104), 2 ^ 128 - 2 ^ 104)
  else if dtype = "float64" then .ok (-(2 ^ 1024 - 2 ^ 971), 2 ^ 1024 - 2 ^ 971)
  else .error "ValueError: data type not understood"

/-- The `output_max` of `get_conv2d_qnn_params` (utils.py lines 171-198):
the largest of the four cross products of the real-valued input and weight
extremes, scaled by the element count. -/
def conv2d_output_max (input_scale : ℚ) (input_zp : ℤ)
    (weights_sc_max weights_sc_min : ℚ) (weights_zp : ℤ)
    (input_dtype_min input_dtype_max weights_dtype_min weights_dtype_max : ℚ)
    (num_elements : ℚ) : ℚ :=
  let input_max := input_scale * (input_dtype_max - (input_zp : ℚ))
  let input_min := input_scale * (input_dtype_min - (input_zp : ℚ))
  let weights_max := weights_sc_max * (weights_dtype_max - (weights_zp : ℚ))
  let weights_min := weights_sc_min * (weights_dtype_min - (weights_zp : ℚ))
  max (max (max (weights_max * input_max * num_elements)
        (weights_min * input_max * num_elements))
      (weights_min * input_min * num_elements))
    (weights_max * input_min * num_elements)

/-- The `output_min` of `get_conv2d_qnn_params` (utils.py lines 171-199):
the smallest of the same four cross products. -/
def conv2d_output_min (input_scale : ℚ) (input_zp : ℤ)
    (weights_sc_max weights_sc_min : ℚ) (weights_zp : ℤ)
    (input_dtype_min input_dtype_max weights_dtype_min weights_dtype_max : ℚ)
    (num_elements : ℚ) : ℚ :=
  let input_max := input_scale * (input_dtype_max - (input_zp : ℚ))
  let input_min := input_scale * (input_dtype_min - (input_zp : ℚ))
  let weights_max := weights_sc_max * (weights_dtype_max - (weights_zp : ℚ))
  let weights_min := weights_sc_min * (weights_dtype_min - (weights_zp : ℚ))
  min (min (min (weights_max * input_max * num_elements)
        (weights_min * input_max * num_elements))
      (weights_min * input_min * num_elements))
    (weights_max * input_min * num_elements)

/-- The `output_scale` of `get_conv2d_qnn_params` (utils.py line 202):
`(output_max - output_min) / (output_dtype_max - output_dtype_min)`. -/
def conv2d_output_scale (input_scale : ℚ) (input_zp : ℤ)
    (weights_sc_max weights_sc_min : ℚ) (weights_zp : ℤ)
    (input_dtype_min input_dtype_max weights_dtype_min weights_dtype_max : ℚ)
    (num_elements output_dtype_min output_dtype_max : ℚ) : ℚ :=
  (conv2d_output_max input_scale input_zp weights_sc_max weights_sc_min weights_zp
      input_dtype_min input_dtype_max weights_dtype_min weights_dtype_max num_elements
    - conv2d_output_min input_scale input_zp weights_sc_max weights_sc_min weights_zp
        input_dtype_min input_dtype_max weights_dtype_min weights_dtype_max num_elements)
    / (output_dtype_max - output_dtype_min)

/-- `get_conv2d_qnn_params` (utils.py lines 128-205).  Failure points, in the
order the Python code hits them: unknown input dtype, unknown weights dtype,
empty weight-scale list (`np.max` of an empty array), weight shape shorter
than 4 (index error), depthwise division by zero channels, unknown output
dtype, and `int()` of the non-finite value arising when `output_scale` is
zero.  The returned zero point is `int(output_dtype_min - output_min /
output_scale)`, i.e. truncation toward zero. -/
def get_conv2d_qnn_params (weight_shape : List ℤ) (input_scale : ℚ) (input_zp : ℤ)
    (weights_scale : List ℚ) (weights_zp : ℤ)
    (input_dtype weights_dtype output_dtype : String) (is_depthwise : Bool) :
    Except String (ℚ × ℤ) :=
  match get_range_for_dtype_str input_dtype with
  | .error e => .error e
  | .ok (input_dtype_min, input_dtype_max) =>
    match get_range_for_dtype_str weights_dtype with
    | .error e => .error e
    | .ok (weights_dtype_min, weights_dtype_max) =>
      match weights_scale with
      | [] => .error "ValueError: zero-size array to reduction operation"
      | w :: ws =>
        let weights_sc_max := foldMax w ws
        let weights_sc_min := foldMin w ws
        match weight_shape with
        | _ :: weights_h :: weights_w :: channels :: _ =>
          if is_depthwise = true ∧ channels = 0 then
            .error "ZeroDivisionError: division by zero"
          else
            let num_elements : ℚ :=
              if is_depthwise then
                ((weights_h * weights_w * channels : ℤ) : ℚ) / (channels : ℚ)
              else ((weights_h * weights_w * channels : ℤ) : ℚ)
            match get_range_for_dtype_str output_dtype with
            | .error e => .error e
            | .ok (output_dtype_min, output_dtype_max) =>
              let output_scale := conv2d_output_scale input_scale input_zp
                weights_sc_max weights_sc_min weights_zp input_dtype_min
                input_dtype_max weights_dtype_min weights_dtype_max num_elements
                output_dtype_min output_dtype_max
              if output_scale = 0 then
                .error "ValueError: cannot convert float NaN to integer"
              else
                .ok (output_scale,
                  ratTrunc (output_dtype_min -
                    conv2d_output_min input_scale input_zp weights_sc_max
                      weights_sc_min weights_zp input_dtype_min input_dtype_max
                      weights_dtype_min weights_dtype_max num_elements
                    / output_scale))
        | _ => .error "IndexError: list index out of range"

/-- `get_same_padding` (utils.py lines 109-125).  Axis inputs are given as
(height, width) pairs; the result list is `[pad_top, pad_left, pad_bottom,
pad_right]`.  Python `//` on the non-negative pad total is floor division,
written `Int.fdiv`. -/
def get_same_padding (in_shape kernel dilation stride : ℤ × ℤ) : List ℤ :=
  let dilated_kernel_h := dilation.1 * (kernel.1 - 1) + 1
  let out_h : ℤ := ⌈(in_shape.1 : ℚ) / (stride.1 : ℚ)⌉
  let pad_h := max 0 ((out_h - 1) * stride.1 + dilated_kernel_h - in_shape.1)
  let pad_top := Int.fdiv pad_h 2
  let pad_bottom := pad_h - pad_top
  let dilated_kernel_w := dilation.2 * (kernel.2 - 1) + 1
  let out_w : ℤ := ⌈(in_shape.2 : ℚ) / (stride.2 : ℚ)⌉
  let pad_w := max 0 ((out_w - 1) * stride.2 + dilated_kernel_w - in_shape.2)
  let pad_left := Int.fdiv pad_w 2
  let pad_right := pad_w - pad_left
  [pad_top, pad_left, pad_bottom, pad_right]

/-- Transcription of the spec's §4.4 per-axis SAME-padding formula, used to
state the refinement claim about `get_same_padding`: returns
`(pad_before, pad_after)` for one spatial axis. -/
def same_padding_axis_spec (input_axis kernel dilation stride : ℤ) : ℤ × ℤ :=
  let effective_kernel := dilation * (kernel - 1) + 1
  let out : ℤ := ⌈(input_axis : ℚ) / (stride : ℚ)⌉
  let total_pad := max 0 ((out - 1) * stride + effective_kernel - input_axis)
  (Int.fdiv total_pad 2, total_pad - Int.fdiv total_pad 2)

/-- Shape of the value returned by `make_qnn_relu`: the unchanged input
expression, a `clip` of it with the given bounds, or Python's implicit
`None` (the fall-through when no branch matches). -/
inductive QnnReluResult where
  | expr : QnnReluResult
  | clip (a_min a_max : ℚ) : QnnReluResult
  | pyNone : QnnReluResult
  deriving DecidableEq

/-- `make_qnn_relu` (utils.py lines 208-227).  The relay expression argument
is abstracted away: the model records which expression constructor is applied
and with which clip bounds.  `quantize x = float(int(round(x / scale)) +
zero_point)` uses Python 3 `round`, i.e. ties to even.  The dtype range is
looked up before the activation dispatch, so an unknown dtype raises even for
`"NONE"`; an unrecognized activation falls through and returns `None`. -/
def make_qnn_relu (fused_activation_fn : String) (scale : ℚ) (zero_point : ℤ)
    (dtype : String) : Except String QnnReluResult :=
  let quantize : ℚ → ℚ := fun x => ((roundHalfEven (x / scale) + zero_point : ℤ) : ℚ)
  match get_range_for_dtype_str dtype with
  | .error e => .error e
  | .ok (qmin, qmax) =>
    if fused_activation_fn = "NONE" then .ok .expr
    else if fused_activation_fn = "RELU6" then
      .ok (.clip (max qmin (quantize 0)) (min qmax (quantize 6)))
    else if fused_activation_fn = "RELU_N1_TO_1" then
      .ok (.clip (max qmin (quantize (-1))) (min qmax (quantize 1)))
    else if fused_activation_fn = "RELU" then
      .ok (.clip (max qmin (quantize 0)) qmax)
    else .ok .pyNone

set_option maxHeartbeats 2000000 in
/-- Every range the dtype oracle returns is a nondegenerate interval. -/
theorem range_lt {d : String} {lo hi : ℚ}
    (h : get_range_for_dtype_str d = .ok (lo, hi)) : lo < hi := by
  unfold get_range_for_dtype_str at h
  have leaf : ∀ a b : ℚ, (Except.ok (a, b) : Except String (ℚ × ℚ)) = Except.ok (lo, hi) →
      a < b → lo < hi := by
    intro a b heq hab
    injection heq with heq
    injection heq with h1 h2
    subst h1; subst h2; exact hab
  rcases eq_or_ne d "int8" with h1 | h1
  · rw [if_pos h1] at h; exact leaf _ _ h (by norm_num)
  rw [if_neg h1] at h
  rcases eq_or_ne d "int16" with h2 | h2
  · rw [if_pos h2] at h; exact leaf _ _ h (by norm_num)
  rw [if_neg h2] at h
  rcases eq_or_ne d "int32" with h3 | h3
  · rw [if_pos h3] at h; exact leaf _ _ h (by norm_num)
  rw [if_neg h3] at h
  rcases eq_or_ne d "int64" with h4 | h4
  · rw [if_pos h4] at h; exact leaf _ _ h (by norm_num)
  rw [if_neg h4] at h
  rcases eq_or_ne d "uint8" with h5 | h5
  · rw [if_pos h5] at h; exact leaf _ _ h (by norm_num)
  rw [if_neg h5] at h
  rcases eq_or_ne d "uint16" with h6 | h6
  · rw [if_pos h6] at h; exact leaf _ _ h (by norm_num)
  rw [if_neg h6] at h
  rcases eq_or_ne d "uint32" with h7 | h7
  · rw [if_pos h7] at h; exact leaf _ _ h (by norm_num)
  rw [if_neg h7] at h
  rcases eq_or_ne d "uint64" with h8 | h8
  · rw [if_pos h8] at h; exact leaf _ _ h (by norm_num)
  rw [if_neg h8] at h
  rcases eq_or_ne d "float16" with h9 | h9
  · rw [if_pos h9] at h; exact leaf _ _ h (by norm_num)
  rw [if_neg h9] at h
  rcases eq_or_ne d "float32" with h10 | h10
  · rw [if_pos h10] at h; exact leaf _ _ h (by norm_num)
  rw [if_neg h10] at h
  rcases eq_or_ne d "float64" with h11 | h11
  · rw [if_pos h11] at h; exact leaf _ _ h (by norm_num)
  rw [if_neg h11] at h
  exact Except.noConfusion h

/-- `foldMax` dominates its starting value. -/
theorem le_foldMax : ∀ (l : List ℚ) (a : ℚ), a ≤ foldMax a l
  | [], a => le_refl a
  | x :: xs, a => le_trans (le_max_left a x) (le_foldMax xs (max a x))

/-- `foldMin` is dominated by its starting value. -/
theorem foldMin_le : ∀ (l : List ℚ) (a : ℚ), foldMin a l ≤ a
  | [], a => le_refl a
  | x :: xs, a => le_trans (foldMin_le xs (min a x)) (min_le_left a x)

/-- The minimum of positive values is positive. -/
theorem foldMin_pos : ∀ (l : List ℚ) (a : ℚ), 0 < a → (∀ x ∈ l, 0 < x) →
    0 < foldMin a l
  | [], _, ha, _ => ha
  | x :: xs, a, ha, h =>
    foldMin_pos xs (min a x) (lt_min ha (h x (List.mem_cons_self x xs)))
      (fun y hy => h y (List.mem_cons_of_mem x hy))

/-- Python `round` of a non-negative value is non-negative. -/
theorem roundHalfEven_nonneg {q : ℚ} (hq : 0 ≤ q) : 0 ≤ roundHalfEven q := by
  have h0 : 0 ≤ ⌊q⌋ := Int.floor_nonneg.mpr hq
  unfold roundHalfEven
  split_ifs <;> omega

/-- Python `round 0 = 0`. -/
theorem roundHalfEven_zero : roundHalfEven 0 = 0 := by
  norm_num [roundHalfEven]

/-- The derived output maximum dominates the derived output minimum. -/
theorem conv2d_output_min_le_max (s : ℚ) (izp : ℤ) (smax smin : ℚ) (wzp : ℤ)
    (ilo ihi wlo whi n : ℚ) :
    conv2d_output_min s izp smax smin wzp ilo ihi wlo whi n ≤
      conv2d_output_max s izp smax smin wzp ilo ihi wlo whi n := by
  simp only [conv2d_output_min, conv2d_output_max]
  exact ((min_le_left _ _).trans ((min_le_left _ _).trans (min_le_left _ _))).trans
    (((le_max_left _ _).trans (le_max_left _ _)).trans (le_max_left _ _))

/-- The output maximum is linear in the input scale (for non-negative scale). -/
theorem conv2d_output_max_smul (s : ℚ) (hs : 0 ≤ s) (izp : ℤ) (smax smin : ℚ)
    (wzp : ℤ) (ilo ihi wlo whi n : ℚ) :
    conv2d_output_max s izp smax smin wzp ilo ihi wlo whi n =
      s * conv2d_output_max 1 izp smax smin wzp ilo ihi wlo whi n := by
  simp only [conv2d_output_max]
  rw [mul_max_of_nonneg _ _ hs, mul_max_of_nonneg _ _ hs, mul_max_of_nonneg _ _ hs]
  ring_nf

/-- The output minimum is linear in the input scale (for non-negative scale). -/
theorem conv2d_output_min_smul (s : ℚ) (hs : 0 ≤ s) (izp : ℤ) (smax smin : ℚ)
    (wzp : ℤ) (ilo ihi wlo whi n : ℚ) :
    conv2d_output_min s izp smax smin wzp ilo ihi wlo whi n =
      s * conv2d_output_min 1 izp smax smin wzp ilo ihi wlo whi n := by
  simp only [conv2d_output_min]
  rw [mul_min_of_nonneg _ _ hs, mul_min_of_nonneg _ _ hs, mul_min_of_nonneg _ _ hs]
  ring_nf

/-- The output scale is linear in the input scale (for non-negative scale). -/
theorem conv2d_output_scale_smul (s : ℚ) (hs : 0 ≤ s) (izp : ℤ) (smax smin : ℚ)
    (wzp : ℤ) (ilo ihi wlo whi n olo ohi : ℚ) :
    conv2d_output_scale s izp smax smin wzp ilo ihi wlo whi n olo ohi =
      s * conv2d_output_scale 1 izp smax smin wzp ilo ihi wlo whi n olo ohi := by
  unfold conv2d_output_scale
  rw [conv2d_output_max_smul s hs, conv2d_output_min_smul s hs]
  ring

/-- C9: for every supported signed integer dtype of bit-width n (int8, int16,
int32, int64), `get_range_for_dtype_str` returns exactly
`(-2^(n-1), 2^(n-1)-1)`. -/
theorem C9_signed_int_range_exact :
    get_range_for_dtype_str "int8" = .ok (-(2 ^ (8 - 1)), 2 ^ (8 - 1) - 1) ∧
    get_range_for_dtype_str "int16" = .ok (-(2 ^ (16 - 1)), 2 ^ (16 - 1) - 1) ∧
    get_range_for_dtype_str "int32" = .ok (-(2 ^ (32 - 1)), 2 ^ (32 - 1) - 1) ∧
    get_range_for_dtype_str "int64" = .ok (-(2 ^ (64 - 1)), 2 ^ (64 - 1) - 1) :=
  ⟨rfl, rfl, rfl, rfl⟩

/-- C6: `get_same_padding` computes, independently per spatial axis, exactly
the spec's SAME-padding formula (effective kernel, ceil-divided output size,
clamped total pad, floor-halved pad split), the height axis populating
(top, bottom) and the width axis populating (left, right); and on
input 7, kernel 3, dilation 1, stride 2 on both axes it yields (1, 1, 1, 1). -/
theorem C6_same_padding_formula :
    (∀ ih iw kh kw dh dw sh sw : ℤ, 0 < ih → 0 < iw → 0 < kh → 0 < kw →
      0 < dh → 0 < dw → 0 < sh → 0 < sw →
      get_same_padding (ih, iw) (kh, kw) (dh, dw) (sh, sw) =
        [(same_padding_axis_spec ih kh dh sh).1, (same_padding_axis_spec iw kw dw sw).1,
         (same_padding_axis_spec ih kh dh sh).2, (same_padding_axis_spec iw kw dw sw).2]) ∧
    get_same_padding (7, 7) (3, 3) (1, 1) (2, 2) = [1, 1, 1, 1] := by
  constructor
  · intro ih iw kh kw dh dw sh sw _ _ _ _ _ _ _ _
    rfl
  · have hceil : (⌈(7 : ℚ) / 2⌉ : ℤ) = 4 := by
      rw [Int.ceil_eq_iff]
      norm_num
    norm_num [get_same_padding, hceil]

/-- C6 witness: the general formula instance at input 7, kernel 3, dilation 1,
stride 2, with the positivity hypotheses discharged. -/
theorem C6_same_padding_formula_witness :
    (0 : ℤ) < 7 ∧
      get_same_padding (7, 7) (3, 3) (1, 1) (2, 2) =
        [(same_padding_axis_spec 7 3 1 2).1, (same_padding_axis_spec 7 3 1 2).1,
         (same_padding_axis_spec 7 3 1 2).2, (same_padding_axis_spec 7 3 1 2).2] :=
  ⟨by norm_num,
    C6_same_padding_formula.1 7 7 3 3 1 1 2 2 (by norm_num) (by norm_num) (by norm_num)
      (by norm_num) (by norm_num) (by norm_num) (by norm_num) (by norm_num)⟩

/-- C8: the end-to-end example: input scale 1/2, zero points 0, weight scale
[1/10], weight shape [1,3,3,4], all dtypes int8, not depthwise, yields a
finite positive output scale (1152/5 = 230.4) and a zero point (-1) within
[-128, 127]. -/
theorem C8_end_to_end_example :
    get_conv2d_qnn_params [1, 3, 3, 4] (1/2) 0 [1/10] 0 "int8" "int8" "int8" false
        = .ok (1152/5, -1) ∧
      (0 : ℚ) < 1152/5 ∧ (-128 : ℤ) ≤ -1 ∧ (-1 : ℤ) ≤ 127 := by
  refine ⟨?_, by norm_num, by norm_num, by norm_num⟩
  norm_num [get_conv2d_qnn_params, get_range_for_dtype_str, conv2d_output_scale,
    conv2d_output_max, conv2d_output_min, foldMax, foldMin, ratTrunc, max_def, min_def,
    Int.ceil_eq_iff, Int.floor_eq_iff]

/-- C2 counterexample: at a degenerate input (input_scale = 0, so
output_max == output_min == 0), `get_conv2d_qnn_params` does not return a
value with a propagated non-finite zero point: the `int()` conversion of the
NaN produced by `0.0 / 0.0` raises, so the call fails instead of returning. -/
theorem C2_counterexample :
    get_conv2d_qnn_params [1, 1, 1, 1] 0 0 [1] 0 "int8" "int8" "int8" false
      = .error "ValueError: cannot convert float NaN to integer" := by
  norm_num [get_conv2d_qnn_params, get_range_for_dtype_str, conv2d_output_scale,
    conv2d_output_max, conv2d_output_min, foldMax, foldMin, max_def, min_def]

/-- C2 amended: whenever the two dtype lookups succeed, the weight-scale list
is nonempty, the shape has at least four entries, the depthwise zero-channel
division is not hit, and the derived output_max equals the derived
output_min, the call does not return: the conversion of the non-finite
intermediate value to int fails (Python ValueError), i.e. the numeric
degeneracy is trapped by `int()` rather than propagated to the caller. -/
theorem C2_amended_degenerate_range_raises :
    ∀ (b h w c : ℤ) (rest : List ℤ) (s : ℚ) (izp : ℤ) (w0 : ℚ) (ws : List ℚ)
      (wzp : ℤ) (idt wdt odt : String) (dw : Bool) (ilo ihi wlo whi olo ohi n : ℚ),
      get_range_for_dtype_str idt = .ok (ilo, ihi) →
      get_range_for_dtype_str wdt = .ok (wlo, whi) →
      get_range_for_dtype_str odt = .ok (olo, ohi) →
      ¬(dw = true ∧ c = 0) →
      n = (if dw = true then ((h * w * c : ℤ) : ℚ) / (c : ℚ)
           else ((h * w * c : ℤ) : ℚ)) →
      conv2d_output_max s izp (foldMax w0 ws) (foldMin w0 ws) wzp ilo ihi wlo whi n
        = conv2d_output_min s izp (foldMax w0 ws) (foldMin w0 ws) wzp ilo ihi wlo whi n →
      get_conv2d_qnn_params (b :: h :: w :: c :: rest) s izp (w0 :: ws) wzp idt wdt odt dw
        = .error "ValueError: cannot convert float NaN to integer" := by
  intro b h w c rest s izp w0 ws wzp idt wdt odt dw ilo ihi wlo whi olo ohi n
    hidt hwdt hodt hguard hn homax
  have hs0 : conv2d_output_scale s izp (foldMax w0 ws) (foldMin w0 ws) wzp
      ilo ihi wlo whi n olo ohi = 0 := by
    unfold conv2d_output_scale
    rw [homax, sub_self, zero_div]
  unfold get_conv2d_qnn_params
  simp only [hidt, hwdt]
  rw [if_neg hguard, ← hn]
  simp only [hodt]
  rw [if_pos hs0]

/-- C2 witness: a concrete degenerate instance (input_scale = 0, weight shape
[2,2,2,2], weight scales [1, 2]) obtained by applying the amended theorem. -/
theorem C2_amended_degenerate_range_raises_witness :
    get_conv2d_qnn_params [2, 2, 2, 2] 0 0 [1, 2] 0 "int8" "int8" "int8" false
      = .error "ValueError: cannot convert float NaN to integer" :=
  C2_amended_degenerate_range_raises 2 2 2 2 [] 0 0 1 [2] 0 "int8" "int8" "int8" false
    (-(2 ^ 7)) (2 ^ 7 - 1) (-(2 ^ 7)) (2 ^ 7 - 1) (-(2 ^ 7)) (2 ^ 7 - 1)
    (if false = true then ((2 * 2 * 2 : ℤ) : ℚ) / ((2 : ℤ) : ℚ)
     else ((2 * 2 * 2 : ℤ) : ℚ))
    rfl rfl rfl (by simp) rfl
    (by norm_num [conv2d_output_max, conv2d_output_min, foldMax, foldMin,
      max_def, min_def])

/-- C3 counterexample: for the unknown activation kind "TANH" the function
returns Python's implicit `None` as a normal return value; it does not fail
with a structured `UnsupportedActivation` error. -/
theorem C3_counterexample :
    make_qnn_relu "TANH" 1 0 "int8" = .ok .pyNone := by
  unfold make_qnn_relu
  simp only [show get_range_for_dtype_str "int8" = .ok (-(2 ^ 7), 2 ^ 7 - 1) from rfl]
  rw [if_neg (by decide : ("TANH" : String) ≠ "NONE"),
    if_neg (by decide : ("TANH" : String) ≠ "RELU6"),
    if_neg (by decide : ("TANH" : String) ≠ "RELU_N1_TO_1"),
    if_neg (by decide : ("TANH" : String) ≠ "RELU")]

/-- C3 amended: for every activation kind other than NONE, RELU6,
RELU_N1_TO_1 and RELU, provided the dtype lookup succeeds, `make_qnn_relu`
falls through every branch and returns Python's implicit `None` — a normal
return, not a structured failure. -/
theorem C3_amended_unknown_activation_returns_none :
    ∀ (kind : String) (scale : ℚ) (zp : ℤ) (dtype : String) (lo hi : ℚ),
      get_range_for_dtype_str dtype = .ok (lo, hi) →
      kind ≠ "NONE" → kind ≠ "RELU6" → kind ≠ "RELU_N1_TO_1" → kind ≠ "RELU" →
      make_qnn_relu kind scale zp dtype = .ok .pyNone := by
  intro kind scale zp dtype lo hi hdt h1 h2 h3 h4
  unfold make_qnn_relu
  simp only [hdt]
  rw [if_neg h1, if_neg h2, if_neg h3, if_neg h4]

/-- C3 witness: the amended theorem applied at the concrete unknown kind
"SIGMOID" with scale 1, zero point 0 and dtype int8. -/
theorem C3_amended_unknown_activation_returns_none_witness :
    make_qnn_relu "SIGMOID" 1 0 "int8" = .ok .pyNone :=
  C3_amended_unknown_activation_returns_none "SIGMOID" 1 0 "int8"
    (-(2 ^ 7)) (2 ^ 7 - 1) rfl (by decide) (by decide) (by decide) (by decide)

/-- C7: for every valid output quantization parameter (positive scale, zero
point within the output dtype's representable range), the RELU6 clip bounds
satisfy dtype_min <= a_min <= a_max <= dtype_max. -/
theorem C7_relu6_clip_bounds_ordered :
    ∀ (scale : ℚ) (zp : ℤ) (dtype : String) (lo hi : ℚ),
      get_range_for_dtype_str dtype = .ok (lo, hi) → 0 < scale →
      lo ≤ (zp : ℚ) → (zp : ℚ) ≤ hi →
      ∃ a b : ℚ, make_qnn_relu "RELU6" scale zp dtype = .ok (.clip a b) ∧
        lo ≤ a ∧ a ≤ b ∧ b ≤ hi := by
  intro scale zp dtype lo hi hdt hs hlo hhi
  have hlh : lo < hi := range_lt hdt
  have h0 : roundHalfEven (0 / scale) = 0 := by
    rw [zero_div]; exact roundHalfEven_zero
  have h6 : (0 : ℚ) ≤ ((roundHalfEven (6 / scale) : ℤ) : ℚ) := by
    exact_mod_cast roundHalfEven_nonneg (le_of_lt (by positivity))
  refine ⟨max lo ((roundHalfEven (0 / scale) + zp : ℤ) : ℚ),
    min hi ((roundHalfEven (6 / scale) + zp : ℤ) : ℚ), ?_, le_max_left _ _, ?_,
    min_le_left _ _⟩
  · unfold make_qnn_relu
    simp only [hdt]
    rw [if_pos trivial, if_neg (by decide : ("RELU6" : String) ≠ "NONE")]
  · apply max_le
    · apply le_min hlh.le
      push_cast
      linarith
    · apply le_min
      · rw [h0]; push_cast; linarith
      · rw [h0]; push_cast; linarith

/-- C7 witness: the RELU6 bound ordering at scale 1, zero point 0, dtype
int8, with the hypotheses discharged concretely. -/
theorem C7_relu6_clip_bounds_ordered_witness :
    (0 : ℚ) < 1 ∧
      ∃ a b : ℚ, make_qnn_relu "RELU6" 1 0 "int8" = .ok (.clip a b) ∧
        -(2 ^ 7) ≤ a ∧ a ≤ b ∧ b ≤ 2 ^ 7 - 1 :=
  ⟨by norm_num,
    C7_relu6_clip_bounds_ordered 1 0 "int8" (-(2 ^ 7)) (2 ^ 7 - 1) rfl (by norm_num)
      (by norm_num) (by norm_num)⟩

/-- C4: with every other parameter held fixed (and a valid output dtype), the
derived output scale is monotone in the input scale: for 0 < s1 <= s2 the
scale derived from s1 is at most the scale derived from s2. -/
theorem C4_output_scale_monotone_in_input_scale :
    ∀ (izp wzp : ℤ) (smax smin ilo ihi wlo whi n olo ohi : ℚ) (odt : String)
      (s1 s2 : ℚ),
      get_range_for_dtype_str odt = .ok (olo, ohi) →
      0 < s1 → s1 ≤ s2 →
      conv2d_output_scale s1 izp smax smin wzp ilo ihi wlo whi n olo ohi ≤
        conv2d_output_scale s2 izp smax smin wzp ilo ihi wlo whi n olo ohi := by
  intro izp wzp smax smin ilo ihi wlo whi n olo ohi odt s1 s2 hodt hs1 h12
  have hd : (0 : ℚ) ≤ ohi - olo := sub_nonneg.mpr (range_lt hodt).le
  rw [conv2d_output_scale_smul s1 hs1.le, conv2d_output_scale_smul s2 (hs1.le.trans h12)]
  apply mul_le_mul_of_nonneg_right h12
  unfold conv2d_output_scale
  exact div_nonneg
    (sub_nonneg.mpr (conv2d_output_min_le_max 1 izp smax smin wzp ilo ihi wlo whi n)) hd

/-- C4 witness: monotonicity instance at input scales 1 <= 2 with unit weight
scales, zero zero-points and int8 ranges everywhere. -/
theorem C4_output_scale_monotone_in_input_scale_witness :
    (0 : ℚ) < 1 ∧
      conv2d_output_scale 1 0 1 1 0 (-(2 ^ 7)) (2 ^ 7 - 1) (-(2 ^ 7)) (2 ^ 7 - 1) 1
          (-(2 ^ 7)) (2 ^ 7 - 1) ≤
        conv2d_output_scale 2 0 1 1 0 (-(2 ^ 7)) (2 ^ 7 - 1) (-(2 ^ 7)) (2 ^ 7 - 1) 1
          (-(2 ^ 7)) (2 ^ 7 - 1) :=
  ⟨by norm_num,
    C4_output_scale_monotone_in_input_scale 0 0 1 1 (-(2 ^ 7)) (2 ^ 7 - 1) (-(2 ^ 7))
      (2 ^ 7 - 1) 1 (-(2 ^ 7)) (2 ^ 7 - 1) "int8" 1 2 rfl (by norm_num) (by norm_num)⟩

/-- C1 counterexample: at weight shape [1,1,1,1], input scale 1, input zero
point -90, per-channel weight scales [1, 3], all dtypes int8, the code
returns zero point -63 (truncation toward zero of -63.874...), while the
claimed ties-away-from-zero rounding of the same intermediate value gives
-64; and at output scale 12, zero point 0, the RELU6 upper clip bound is 0
(Python round(0.5) = 0, ties to even), while the claimed ties-away rule gives
round(6/12) + 0 = 1. -/
theorem C1_counterexample :
    get_conv2d_qnn_params [1, 1, 1, 1] 1 (-90) [1, 3] 0 "int8" "int8" "int8" false
        = .ok (110453 / 255, -63) ∧
      round_to_nearest_int (-(2 ^ 7) - (-27776 : ℚ) / (110453 / 255)) = -64 ∧
      make_qnn_relu "RELU6" 12 0 "int8" = .ok (.clip 0 0) ∧
      round_to_nearest_int ((6 : ℚ) / 12) + 0 = 1 := by
  have hq6 : roundHalfEven ((1 : ℚ) / 2) = 0 := by
    have hf : ⌊(1 : ℚ) / 2⌋ = 0 := by
      rw [Int.floor_eq_iff]
      norm_num
    unfold roundHalfEven
    rw [hf]
    norm_num
  refine ⟨?_, ?_, ?_, ?_⟩
  · norm_num [get_conv2d_qnn_params, get_range_for_dtype_str, conv2d_output_scale,
      conv2d_output_max, conv2d_output_min, foldMax, foldMin, ratTrunc, max_def, min_def,
      Int.ceil_eq_iff, Int.floor_eq_iff]
  · norm_num [round_to_nearest_int, Int.ceil_eq_iff]
  · unfold make_qnn_relu
    simp only [show get_range_for_dtype_str "int8" = .ok (-(2 ^ 7), 2 ^ 7 - 1) from rfl]
    rw [if_pos trivial, if_neg (by decide : ("RELU6" : String) ≠ "NONE")]
    norm_num [roundHalfEven_zero, hq6, max_def, min_def]
  · have hfl : ⌊(6 : ℚ) / 12 + 1 / 2⌋ = 1 := by
      rw [Int.floor_eq_iff]
      norm_num
    norm_num [round_to_nearest_int, hfl]

/-- C1 amended: the two sites use different integer rounding rules, neither of
which is ties-away-from-zero in general.  `get_conv2d_qnn_params` computes
the zero point by truncation toward zero (Python `int()`) of
`output_dtype_min - output_min / output_scale`, and the `make_qnn_relu`
quantize helper computes `round_half_to_even(x / output_scale) +
output_zero_point` (shown for the RELU6 bounds). -/
theorem C1_amended_rounding_rules :
    (∀ (b h w c : ℤ) (rest : List ℤ) (s : ℚ) (izp : ℤ) (w0 : ℚ) (ws : List ℚ)
      (wzp : ℤ) (idt wdt odt : String) (dw : Bool) (ilo ihi wlo whi olo ohi n S : ℚ),
      get_range_for_dtype_str idt = .ok (ilo, ihi) →
      get_range_for_dtype_str wdt = .ok (wlo, whi) →
      get_range_for_dtype_str odt = .ok (olo, ohi) →
      ¬(dw = true ∧ c = 0) →
      n = (if dw = true then ((h * w * c : ℤ) : ℚ) / (c : ℚ)
           else ((h * w * c : ℤ) : ℚ)) →
      S = conv2d_output_scale s izp (foldMax w0 ws) (foldMin w0 ws) wzp
            ilo ihi wlo whi n olo ohi →
      S ≠ 0 →
      get_conv2d_qnn_params (b :: h :: w :: c :: rest) s izp (w0 :: ws) wzp idt wdt odt dw
        = .ok (S, ratTrunc (olo -
            conv2d_output_min s izp (foldMax w0 ws) (foldMin w0 ws) wzp
              ilo ihi wlo whi n / S))) ∧
    (∀ (scale : ℚ) (zp : ℤ) (dtype : String) (lo hi : ℚ),
      get_range_for_dtype_str dtype = .ok (lo, hi) →
      make_qnn_relu "RELU6" scale zp dtype
        = .ok (.clip (max lo ((roundHalfEven (0 / scale) + zp : ℤ) : ℚ))
            (min hi ((roundHalfEven (6 / scale) + zp : ℤ) : ℚ)))) := by
  constructor
  · intro b h w c rest s izp w0 ws wzp idt wdt odt dw ilo ihi wlo whi olo ohi n S
      hidt hwdt hodt hguard hn hS hSne
    unfold get_conv2d_qnn_params
    simp only [hidt, hwdt]
    rw [if_neg hguard, ← hn]
    simp only [hodt]
    rw [← hS, if_neg hSne]
  · intro scale zp dtype lo hi hdt
    unfold make_qnn_relu
    simp only [hdt]
    rw [if_pos trivial, if_neg (by decide : ("RELU6" : String) ≠ "NONE")]

/-- C1 witness: the amended statement instantiated at weight shape [1,1,1,1],
unit scales and zero zero-points (yielding scale 128 and zero point
int(-1.0) = -1), and at RELU6 with scale 1, zero point 0, dtype int8. -/
theorem C1_amended_rounding_rules_witness :
    get_conv2d_qnn_params [1, 1, 1, 1] 1 0 [1] 0 "int8" "int8" "int8" false
        = .ok (128, -1) ∧
      make_qnn_relu "RELU6" 1 0 "int8"
        = .ok (.clip (max (-(2 ^ 7)) ((roundHalfEven (0 / 1) + 0 : ℤ) : ℚ))
            (min (2 ^ 7 - 1) ((roundHalfEven (6 / 1) + 0 : ℤ) : ℚ))) := by
  constructor
  · have happ := C1_amended_rounding_rules.1 1 1 1 1 [] 1 0 1 [] 0 "int8" "int8" "int8"
      false (-(2 ^ 7)) (2 ^ 7 - 1) (-(2 ^ 7)) (2 ^ 7 - 1) (-(2 ^ 7)) (2 ^ 7 - 1)
      (if false = true then ((1 * 1 * 1 : ℤ) : ℚ) / ((1 : ℤ) : ℚ)
       else ((1 * 1 * 1 : ℤ) : ℚ))
      (conv2d_output_scale 1 0 (foldMax 1 []) (foldMin 1 []) 0 (-(2 ^ 7)) (2 ^ 7 - 1)
        (-(2 ^ 7)) (2 ^ 7 - 1)
        (if false = true then ((1 * 1 * 1 : ℤ) : ℚ) / ((1 : ℤ) : ℚ)
         else ((1 * 1 * 1 : ℤ) : ℚ)) (-(2 ^ 7)) (2 ^ 7 - 1))
      rfl rfl rfl (by simp) rfl rfl
      (by norm_num [conv2d_output_scale, conv2d_output_max, conv2d_output_min,
        foldMax, foldMin, max_def, min_def])
    rw [happ]
    norm_num [conv2d_output_scale, conv2d_output_max, conv2d_output_min, foldMax,
      foldMin, ratTrunc, max_def, min_def, Int.ceil_eq_iff, Int.floor_eq_iff]
  · exact C1_amended_rounding_rules.2 1 0 "int8" (-(2 ^ 7)) (2 ^ 7 - 1) rfl

/-- C5 counterexample: with zero channels the two calls the claim equates
behave differently: the depthwise call raises ZeroDivisionError on
`num_elements / channels` while the channels-1 call returns normally. -/
theorem C5_counterexample :
    get_conv2d_qnn_params [1, 3, 3, 0] 1 0 [1] 0 "int8" "int8" "int8" true
        = .error "ZeroDivisionError: division by zero" ∧
      get_conv2d_qnn_params [1, 3, 3, 1] 1 0 [1] 0 "int8" "int8" "int8" false
        = .ok (1152, -1) := by
  constructor
  · norm_num [get_conv2d_qnn_params, get_range_for_dtype_str]
  · norm_num [get_conv2d_qnn_params, get_range_for_dtype_str, conv2d_output_scale,
      conv2d_output_max, conv2d_output_min, foldMax, foldMin, ratTrunc, max_def, min_def,
      Int.ceil_eq_iff, Int.floor_eq_iff]

/-- C5 amended: for every weight shape (b, H, W, C) with nonzero channel count
C, and every choice of the remaining parameters, the depthwise call on
(b, H, W, C) returns exactly the same result as the non-depthwise call on
(b, H, W, 1): both reduce the accumulated element count to H*W. -/
theorem C5_amended_depthwise_consistency :
    ∀ (b h w c : ℤ) (s : ℚ) (izp : ℤ) (wsc : List ℚ) (wzp : ℤ)
      (idt wdt odt : String),
      c ≠ 0 →
      get_conv2d_qnn_params [b, h, w, c] s izp wsc wzp idt wdt odt true =
        get_conv2d_qnn_params [b, h, w, 1] s izp wsc wzp idt wdt odt false := by
  intro b h w c s izp wsc wzp idt wdt odt hc
  have hcq : ((c : ℤ) : ℚ) ≠ 0 := Int.cast_ne_zero.mpr hc
  have hn : ((h * w * c : ℤ) : ℚ) / ((c : ℤ) : ℚ) = ((h * w * 1 : ℤ) : ℚ) := by
    push_cast
    rw [mul_div_assoc, div_self hcq]
  unfold get_conv2d_qnn_params
  rcases hidt : get_range_for_dtype_str idt with e | ⟨ilo, ihi⟩
  · rfl
  rcases hwdt : get_range_for_dtype_str wdt with e | ⟨wlo, whi⟩
  · rfl
  rcases wsc with _ | ⟨w0, ws⟩
  · rfl
  dsimp only
  rw [if_neg (by simp [hc] : ¬(true = true ∧ c = 0)),
    if_neg (by simp : ¬(false = true ∧ (1 : ℤ) = 0)),
    if_pos rfl, if_neg (by simp : ¬(false = true)), hn]

/-- C5 witness: the amended depthwise consistency applied at the concrete
shape [1,3,3,3] (so H*W = 9 accumulated elements on both sides). -/
theorem C5_amended_depthwise_consistency_witness :
    get_conv2d_qnn_params [1, 3, 3, 3] 1 0 [1] 0 "int8" "int8" "int8" true =
      get_conv2d_qnn_params [1, 3, 3, 1] 1 0 [1] 0 "int8" "int8" "int8" false :=
  C5_amended_depthwise_consistency 1 3 3 3 1 0 [1] 0 "int8" "int8" "int8" (by norm_num)

/-- C10: under the invariants (positive input scale, positive weight scales,
zero points within their dtype ranges, positive height, width and channels),
the derived output_max strictly exceeds output_min, hence output_scale is
strictly positive, the division in the zero-point computation has a nonzero
divisor, and `get_conv2d_qnn_params` returns normally: the degenerate
NaN branch is unreachable. -/
theorem C10_invariants_preclude_degeneracy :
    ∀ (b h w c : ℤ) (rest : List ℤ) (s : ℚ) (izp : ℤ) (w0 : ℚ) (ws : List ℚ)
      (wzp : ℤ) (idt wdt odt : String) (dw : Bool) (ilo ihi wlo whi olo ohi n : ℚ),
      get_range_for_dtype_str idt = .ok (ilo, ihi) →
      get_range_for_dtype_str wdt = .ok (wlo, whi) →
      get_range_for_dtype_str odt = .ok (olo, ohi) →
      0 < s → (∀ x ∈ w0 :: ws, 0 < x) →
      ilo ≤ (izp : ℚ) → (izp : ℚ) ≤ ihi →
      wlo ≤ (wzp : ℚ) → (wzp : ℚ) ≤ whi →
      0 < h → 0 < w → 0 < c →
      n = (if dw = true then ((h * w * c : ℤ) : ℚ) / (c : ℚ)
           else ((h * w * c : ℤ) : ℚ)) →
      conv2d_output_min s izp (foldMax w0 ws) (foldMin w0 ws) wzp ilo ihi wlo whi n <
          conv2d_output_max s izp (foldMax w0 ws) (foldMin w0 ws) wzp ilo ihi wlo whi n ∧
        0 < conv2d_output_scale s izp (foldMax w0 ws) (foldMin w0 ws) wzp ilo ihi wlo whi
            n olo ohi ∧
        get_conv2d_qnn_params (b :: h :: w :: c :: rest) s izp (w0 :: ws) wzp idt wdt odt dw
          = .ok (conv2d_output_scale s izp (foldMax w0 ws) (foldMin w0 ws) wzp ilo ihi
                wlo whi n olo ohi,
              ratTrunc (olo -
                conv2d_output_min s izp (foldMax w0 ws) (foldMin w0 ws) wzp ilo ihi wlo whi n
                  / conv2d_output_scale s izp (foldMax w0 ws) (foldMin w0 ws) wzp ilo ihi
                      wlo whi n olo ohi)) := by
  intro b h w c rest s izp w0 ws wzp idt wdt odt dw ilo ihi wlo whi olo ohi n
    hidt hwdt hodt hs hws hizl hizh hwzl hwzh hh hw hc hn
  have hil : ilo < ihi := range_lt hidt
  have hwl : wlo < whi := range_lt hwdt
  have hol : olo < ohi := range_lt hodt
  have hsmax : 0 < foldMax w0 ws :=
    lt_of_lt_of_le (hws w0 (List.mem_cons_self w0 ws)) (le_foldMax ws w0)
  have hsmin : 0 < foldMin w0 ws :=
    foldMin_pos ws w0 (hws w0 (List.mem_cons_self w0 ws))
      (fun x hx => hws x (List.mem_cons_of_mem w0 hx))
  have hhwc : (0 : ℤ) < h * w * c := mul_pos (mul_pos hh hw) hc
  have hn0 : 0 < n := by
    subst hn
    cases dw with
    | false => simpa using (show (0 : ℚ) < ((h * w * c : ℤ) : ℚ) by exact_mod_cast hhwc)
    | true =>
      have h1 : (0 : ℚ) < ((h * w * c : ℤ) : ℚ) := by exact_mod_cast hhwc
      have h2 : (0 : ℚ) < ((c : ℤ) : ℚ) := by exact_mod_cast hc
      simpa using div_pos h1 h2
  have himm : s * (ilo - (izp : ℚ)) < s * (ihi - (izp : ℚ)) :=
    mul_lt_mul_of_pos_left (by linarith) hs
  have hwmax0 : 0 ≤ foldMax w0 ws * (whi - (wzp : ℚ)) :=
    mul_nonneg hsmax.le (by linarith)
  have key : conv2d_output_min s izp (foldMax w0 ws) (foldMin w0 ws) wzp ilo ihi wlo whi n <
      conv2d_output_max s izp (foldMax w0 ws) (foldMin w0 ws) wzp ilo ihi wlo whi n := by
    simp only [conv2d_output_min, conv2d_output_max]
    rcases hwmax0.lt_or_eq with hpos | hzero
    · refine lt_of_le_of_lt (min_le_right _ _) (lt_of_lt_of_le ?_
        (((le_max_left _ _).trans (le_max_left _ _)).trans (le_max_left _ _)))
      exact mul_lt_mul_of_pos_right (mul_lt_mul_of_pos_left himm hpos) hn0
    · have hwzph : (wzp : ℚ) = whi := by
        rcases mul_eq_zero.mp hzero.symm with h' | h'
        · exact absurd h' hsmax.ne'
        · linarith
      have hwminneg : foldMin w0 ws * (wlo - (wzp : ℚ)) < 0 :=
        mul_neg_of_pos_of_neg hsmin (by rw [hwzph]; linarith)
      refine lt_of_le_of_lt
        ((min_le_left _ _).trans ((min_le_left _ _).trans (min_le_right _ _)))
        (lt_of_lt_of_le ?_ ((le_max_right _ _).trans (le_max_left _ _)))
      exact mul_lt_mul_of_pos_right (mul_lt_mul_of_neg_left himm hwminneg) hn0
  have hscale : 0 < conv2d_output_scale s izp (foldMax w0 ws) (foldMin w0 ws) wzp
      ilo ihi wlo whi n olo ohi := by
    unfold conv2d_output_scale
    exact div_pos (sub_pos.mpr key) (sub_pos.mpr hol)
  have hguard : ¬(dw = true ∧ c = 0) := by
    rintro ⟨hdw, hc0⟩
    omega
  refine ⟨key, hscale, ?_⟩
  unfold get_conv2d_qnn_params
  simp only [hidt, hwdt]
  rw [if_neg hguard, ← hn]
  simp only [hodt]
  rw [if_neg hscale.ne']

/-- C10 witness: the invariants hold at weight shape [1,3,3,4], unit scales,
zero zero-points, int8 dtypes, not depthwise, and the theorem applies. -/
theorem C10_invariants_preclude_degeneracy_witness :
    conv2d_output_min 1 0 (foldMax 1 []) (foldMin 1 []) 0 (-(2 ^ 7)) (2 ^ 7 - 1)
        (-(2 ^ 7)) (2 ^ 7 - 1)
        (if false = true then ((3 * 3 * 4 : ℤ) : ℚ) / ((4 : ℤ) : ℚ)
         else ((3 * 3 * 4 : ℤ) : ℚ)) <
      conv2d_output_max 1 0 (foldMax 1 []) (foldMin 1 []) 0 (-(2 ^ 7)) (2 ^ 7 - 1)
        (-(2 ^ 7)) (2 ^ 7 - 1)
        (if false = true then ((3 * 3 * 4 : ℤ) : ℚ) / ((4 : ℤ) : ℚ)
         else ((3 * 3 * 4 : ℤ) : ℚ)) ∧
      0 < conv2d_output_scale 1 0 (foldMax 1 []) (foldMin 1 []) 0 (-(2 ^ 7)) (2 ^ 7 - 1)
          (-(2 ^ 7)) (2 ^ 7 - 1)
          (if false = true then ((3 * 3 * 4 : ℤ) : ℚ) / ((4 : ℤ) : ℚ)
           else ((3 * 3 * 4 : ℤ) : ℚ)) (-(2 ^ 7)) (2 ^ 7 - 1) ∧
      get_conv2d_qnn_params [1, 3, 3, 4] 1 0 [1] 0 "int8" "int8" "int8" false
        = .ok (conv2d_output_scale 1 0 (foldMax 1 []) (foldMin 1 []) 0 (-(2 ^ 7))
              (2 ^ 7 - 1) (-(2 ^ 7)) (2 ^ 7 - 1)
              (if false = true then ((3 * 3 * 4 : ℤ) : ℚ) / ((4 : ℤ) : ℚ)
               else ((3 * 3 * 4 : ℤ) : ℚ)) (-(2 ^ 7)) (2 ^ 7 - 1),
            ratTrunc (-(2 ^ 7) -
              conv2d_output_min 1 0 (foldMax 1 []) (foldMin 1 []) 0 (-(2 ^ 7)) (2 ^ 7 - 1)
                (-(2 ^ 7)) (2 ^ 7 - 1)
                (if false = true then ((3 * 3 * 4 : ℤ) : ℚ) / ((4 : ℤ) : ℚ)
                 else ((3 * 3 * 4 : ℤ) : ℚ))
                / conv2d_output_scale 1 0 (foldMax 1 []) (foldMin 1 []) 0 (-(2 ^ 7))
                    (2 ^ 7 - 1) (-(2 ^ 7)) (2 ^ 7 - 1)
                    (if false = true then ((3 * 3 * 4 : ℤ) : ℚ) / ((4 : ℤ) : ℚ)
                     else ((3 * 3 * 4 : ℤ) : ℚ)) (-(2 ^ 7)) (2 ^ 7 - 1))) :=
  C10_invariants_preclude_degeneracy 1 3 3 4 [] 1 0 1 [] 0 "int8" "int8" "int8" false
    (-(2 ^ 7)) (2 ^ 7 - 1) (-(2 ^ 7)) (2 ^ 7 - 1) (-(2 ^ 7)) (2 ^ 7 - 1)
    (if false = true then ((3 * 3 * 4 : ℤ) : ℚ) / ((4 : ℤ) : ℚ)
     else ((3 * 3 * 4 : ℤ) : ℚ))
    rfl rfl rfl (by norm_num)
    (by intro x hx
        rcases List.mem_singleton.mp hx with rfl
        norm_num)
    (by norm_num) (by norm_num) (by norm_num) (by norm_num)
    (by norm_num) (by norm_num) (by norm_num) rfl
